import Mathlib

/-!
Verification of the scenario-execution core of an Ethereum execution-client
benchmarking harness.  Each definition is a shallow embedding of the Python
function of the same (or clearly related) name; file and line references are
given in the doc comments.
-/

namespace Expb

/-! ### Python-level error and result model -/

/-- The Python exceptions raised by the embedded code. -/
inductive PyError where
  | rpcError (error : String) (statusCode : Nat) (hasResponse : Bool)
  | attributeError (attrName : String)
  | valueError (msg : String)
  | fileExistsError (path : String)
  | calledProcessError (cmd : String)
  deriving DecidableEq

/-- Result of running a Python fragment: a value or a raised exception. -/
inductive PyResult (α : Type) where
  | ok (val : α)
  | raise (e : PyError)
  deriving DecidableEq

def PyResult.isOk {α : Type} : PyResult α → Bool
  | .ok _ => true
  | .raise _ => false

/-- The exception carried by a result, if any. -/
def PyResult.exn {α : Type} : PyResult α → Option PyError
  | .ok _ => none
  | .raise e => some e

def PyResult.bind {α β : Type} : PyResult α → (α → PyResult β) → PyResult β
  | .ok a, f => f a
  | .raise e, _ => .raise e

/-! ### JWT provider (src/expb/payloads/utils/jwt.py) -/

/-- JSON values appearing in the JWT header/payload dicts. -/
inductive JsonVal where
  | str (s : String)
  | int (n : Nat)
  deriving DecidableEq

def renderJsonVal : JsonVal → String
  | .str s => "\"" ++ s ++ "\""
  | .int n => toString n

/-- The comma-separated `"key":value` body of a serialized JSON object. -/
def jsonDumpsPairs : List (String × JsonVal) → String
  | [] => ""
  | [p] => "\"" ++ p.1 ++ "\":" ++ renderJsonVal p.2
  | p :: q :: rest => "\"" ++ p.1 ++ "\":" ++ renderJsonVal p.2 ++ "," ++ jsonDumpsPairs (q :: rest)

/-- `json.dumps(dict, separators=(",", ":"))` for the flat dicts used in jwt.py,
with keys in insertion order. -/
def jsonDumps (pairs : List (String × JsonVal)) : String :=
  "\x7b" ++ jsonDumpsPairs pairs ++ "\x7d"

def b64UrlAlphabet : List Char :=
  "ABCDEFGHIJKLMNOPQRSTUVWXYZabcdefghijklmnopqrstuvwxyz0123456789-_".toList

def b64Char (n : Nat) : Char := b64UrlAlphabet.getD n 'A'

/-- `JWTProvider._base64url_encode`: base64url encoding of a byte list with the
trailing padding (`=`) stripped, as produced by
`base64.urlsafe_b64encode(data).decode().rstrip("=")`. -/
def base64urlEncode : List Nat → String
  | [] => ""
  | [a] => String.mk [b64Char (a / 4), b64Char (a % 4 * 16)]
  | [a, b] =>
      String.mk [b64Char (a / 4), b64Char (a % 4 * 16 + b / 16), b64Char (b % 16 * 4)]
  | a :: b :: c :: rest =>
      String.mk [b64Char (a / 4), b64Char (a % 4 * 16 + b / 16),
        b64Char (b % 16 * 4 + c / 64), b64Char (c % 64)] ++
      base64urlEncode rest

/-- `str.encode()` for the ASCII strings signed by jwt.py. -/
def strBytes (s : String) : List Nat := s.toList.map Char.toNat

/-- The provider's `_jwt_cache` dict: a `(token, exp)` pair. -/
structure JWTCache where
  token : String
  exp : Nat
  deriving DecidableEq

/-- Initial cache value `{"token": "", "exp": 0}`. -/
def initialJwtCache : JWTCache := ⟨"", 0⟩

/-- Default of the `expiration_threshold_seconds` argument of `JWTProvider.__init__`. -/
def defaultExpirationThresholdSeconds : Nat := 10

/-- Default of the `expiration_seconds` argument of `JWTProvider.get_jwt`. -/
def defaultExpirationSeconds : Nat := 120

/-- The freshness test used at both cache reads in `get_jwt`:
`self._jwt_cache["token"] and now < self._jwt_cache["exp"] - threshold`. -/
def cacheIsFresh (thr now : Nat) (c : JWTCache) : Bool :=
  (c.token != "") && decide ((now : Int) < (c.exp : Int) - (thr : Int))

/-- The header dict literal of `get_jwt`, serialized. -/
def jwtHeaderJson : String := jsonDumps [("typ", .str "JWT"), ("alg", .str "HS256")]

/-- The payload dict literal of `get_jwt`, serialized. -/
def jwtPayloadJson (iat exp : Nat) : String :=
  jsonDumps [("iat", .int iat), ("exp", .int exp)]

/-- What one `get_jwt` call returns and (possibly) writes back to the cache. -/
structure GetJwtResult where
  token : String
  write : Option JWTCache
  deriving DecidableEq

/-- `JWTProvider.get_jwt`.  `hmacSha256 key msg` stands for
`hmac.new(key, msg, hashlib.sha256).digest()`.  The lock is released between the
first cache read and the write-back, so the two critical sections may observe
different cache states: `c1` is the cache at the first read, `c2` the cache at
the double-checked write; a sequential caller has `c2 = c1`. -/
def getJwt (hmacSha256 : List Nat → List Nat → List Nat) (jwtSecretBytes : List Nat)
    (thr : Nat) (now : Nat) (expirationSeconds : Nat) (c1 c2 : JWTCache) : GetJwtResult :=
  if cacheIsFresh thr now c1 then
    ⟨c1.token, none⟩
  else
    let iat := now
    let exp := iat + expirationSeconds
    let headerB64 := base64urlEncode (strBytes jwtHeaderJson)
    let payloadB64 := base64urlEncode (strBytes (jwtPayloadJson iat exp))
    let message := headerB64 ++ "." ++ payloadB64
    let signatureB64 := base64urlEncode (hmacSha256 jwtSecretBytes (strBytes message))
    let token := message ++ "." ++ signatureB64
    if cacheIsFresh thr now c2 then
      ⟨token, none⟩
    else
      ⟨token, some ⟨token, exp⟩⟩

/-- The method names defined in `class JWTProvider` (jwt.py lines 11-92). -/
def JWTProvider.methodNames : List String :=
  ["__init__", "get_jwt", "_base64url_encode"]

/-- Whether attribute lookup of `invalidate_jwt` on a `JWTProvider` instance
succeeds (the class defines no such method and instances carry no such field,
so lookup raises `AttributeError` iff this is `false`). -/
def JWTProvider.hasInvalidateJwt : Bool :=
  JWTProvider.methodNames.contains "invalidate_jwt"

/-! ### Engine RPC client (src/expb/payloads/utils/engine.py) -/

/-- An HTTP response as observed by `engine_request`: status code, body text,
and the decoded JSON body's optional `error` / `result` fields. -/
structure RpcResponse where
  status : Nat
  text : String
  errorField : Option String
  resultField : Option String
  deriving DecidableEq

/-- `requests.Response.ok`: true iff the status code is below 400. -/
def RpcResponse.ok (r : RpcResponse) : Bool := decide (r.status < 400)

/-- Observable trace of one `engine_request` call: its outcome plus how many
times it called `get_jwt` / `invalidate_jwt`, how many HTTP POSTs it made, and
the `expiration_seconds` value passed to `get_jwt` on each attempt. -/
structure EngineTrace where
  outcome : PyResult String
  getJwtCalls : Nat
  invalidateCalls : Nat
  httpRequests : Nat
  expirationsUsed : List Nat
  deriving DecidableEq

/-- The `while retries > 0` loop of `engine_request`.  `responses i` is the HTTP
response to the i-th POST.  `hasInvalidate` records whether the provider object
has an `invalidate_jwt` attribute: the 401/403 branch calls it after doubling
`expiration_seconds`, so when the attribute is missing that branch raises
`AttributeError` instead of retrying. -/
def engineRequestGo (hasInvalidate : Bool) (responses : Nat → RpcResponse) :
    Nat → Nat → Nat → EngineTrace
  | _, _, 0 =>
      ⟨.raise (.rpcError "Authentication retries exhausted" 401 false), 0, 0, 0, []⟩
  | attempt, expirationSeconds, fuel + 1 =>
      let r := responses attempt
      if r.ok then
        match r.errorField with
        | some e => ⟨.raise (.rpcError e r.status true), 1, 0, 1, [expirationSeconds]⟩
        | none =>
          match r.resultField with
          | some res => ⟨.ok res, 1, 0, 1, [expirationSeconds]⟩
          | none =>
              ⟨.raise (.rpcError "No result in response" r.status true), 1, 0, 1,
                [expirationSeconds]⟩
      else if r.status = 401 ∨ r.status = 403 then
        let newExpiration := min (expirationSeconds * 2) 3600
        if hasInvalidate then
          let t := engineRequestGo hasInvalidate responses (attempt + 1) newExpiration fuel
          ⟨t.outcome, t.getJwtCalls + 1, t.invalidateCalls + 1, t.httpRequests + 1,
            expirationSeconds :: t.expirationsUsed⟩
        else
          ⟨.raise (.attributeError "invalidate_jwt"), 1, 0, 1, [expirationSeconds]⟩
      else
        ⟨.raise (.rpcError r.text r.status true), 1, 0, 1, [expirationSeconds]⟩

/-- `engine_request(engine_url, jwt_provider, rpc_request, timeout,
expiration_seconds, retries)`, abstracted over whether the provider object has
an `invalidate_jwt` attribute.  `retries` is a Python int; the loop body runs
only while it is positive. -/
def engineRequest (hasInvalidate : Bool) (responses : Nat → RpcResponse)
    (expirationSeconds : Nat) (retries : Int) : EngineTrace :=
  engineRequestGo hasInvalidate responses 0 expirationSeconds retries.toNat

/-- `engine_request` called with the actual `JWTProvider` from jwt.py. -/
def engineRequestReal (responses : Nat → RpcResponse) (expirationSeconds : Nat)
    (retries : Int) : EngineTrace :=
  engineRequest JWTProvider.hasInvalidateJwt responses expirationSeconds retries

/-! ### Snapshot services
(src/expb/payloads/executor/services/snapshots/\x7bcopy,overlay,zfs\x7d.py) -/

/-- Abstract filesystem: which absolute paths currently exist. -/
def FS := String → Bool

def FS.set (fs : FS) (p : String) (v : Bool) : FS :=
  fun q => if q = p then v else fs q

/-- `shutil.rmtree(path)`: raises if the path does not exist. -/
def rmtree (fs : FS) (p : String) : PyResult FS :=
  if fs p then .ok (fs.set p false) else .raise (.valueError ("No such file: " ++ p))

/-- `shutil.copytree(src, dest)`: raises if `src` is missing and raises
`FileExistsError` if `dest` already exists. -/
def copytree (fs : FS) (src dest : String) : PyResult FS :=
  if !fs src then .raise (.valueError ("No such file: " ++ src))
  else if fs dest then .raise (.fileExistsError dest)
  else .ok (fs.set dest true)

/-- `Path.mkdir(parents=True, exist_ok=True)`. -/
def mkdirP (fs : FS) (p : String) : FS := fs.set p true

/-- `CopySnapshotService._get_snapshot_path(name)` for a service with work
directory `workDir`. -/
def copySnapshotPath (workDir name : String) : String := workDir ++ "/" ++ name

/-- `CopySnapshotService.create_snapshot(name, source)`.  Returns the
destination path together with the updated filesystem. -/
def copyCreateSnapshot (fs : FS) (workDir name source : String) :
    PyResult (String × FS) :=
  if fs source then
    let dest := copySnapshotPath workDir name
    let step1 : PyResult FS := if fs dest then rmtree fs dest else .ok fs
    step1.bind fun fs1 =>
      let fs2 := mkdirP fs1 workDir
      (copytree fs2 source dest).bind fun fs3 => .ok (dest, fs3)
  else
    .raise (.valueError ("Snapshot source does not exist: " ++ source))

/-- `CopySnapshotService.delete_snapshot(name, source)`. -/
def copyDeleteSnapshot (fs : FS) (workDir name : String) : PyResult FS :=
  let p := copySnapshotPath workDir name
  if fs p then rmtree fs p else .ok fs

/-- State of the overlay backend: whether the three configured directories
exist, a mount count for the merged directory (overlay mounts stack), and
whether the upper directory still holds content written under a previous
mount of the same name (stale copy-on-write data). -/
structure OverlayState where
  upperExists : Bool
  workExists : Bool
  mergedExists : Bool
  mounts : Nat
  upperStale : Bool
  deriving DecidableEq

/-- `OverlaySnapshotService.create_snapshot(name, source)`: validates the
source, `mkdir`s the three directories (`exist_ok=True` — nothing is removed),
and mounts the overlay.  Stale upper/work contents are left in place. -/
def overlayCreateSnapshot (st : OverlayState) (sourceExists : Bool) :
    PyResult OverlayState :=
  if sourceExists then
    .ok { st with upperExists := true, workExists := true, mergedExists := true,
                  mounts := st.mounts + 1 }
  else
    .raise (.valueError "Snapshot source does not exist")

/-- `OverlaySnapshotService.delete_snapshot(name, source)`.  `umountFails` /
`rmtreeFails` model the external commands failing; both failure kinds are
caught inside the method, so it always returns. -/
def overlayDeleteSnapshot (st : OverlayState) (umountFails rmtreeFails : Bool) :
    PyResult OverlayState :=
  let st1 :=
    if st.mounts > 0 && !umountFails then { st with mounts := st.mounts - 1 } else st
  let st2 :=
    if rmtreeFails then st1
    else { st1 with upperExists := false, workExists := false, mergedExists := false,
                    upperStale := false }
  .ok st2

/-- State visible to the ZFS backend: which ZFS snapshots and datasets exist,
each dataset's mountpoint, and which filesystem paths exist. -/
structure ZfsState where
  snapshots : String → Bool
  datasets : String → Bool
  mountpointOf : String → String
  pathExists : String → Bool

/-- The characters before the first `@`. -/
def takeUntilAt : List Char → List Char
  | [] => []
  | c :: rest => if c = '@' then [] else c :: takeUntilAt rest

/-- `ZFSSnapshotService._extract_dataset_name(source)`: `source.split("@")[0]`,
the prefix of `source` before the first `@` (all of it when there is none). -/
def extractDatasetName (source : String) : String :=
  String.mk (takeUntilAt source.toList)

/-- `ZFSSnapshotService._get_dataset_clone_name(dataset, name)`. -/
def datasetCloneName (dataset name : String) : String := dataset ++ "_" ++ name

/-- `ZFSSnapshotService.get_snapshot(name, source)`: `zfs get mountpoint` fails
when the clone dataset does not exist. -/
def zfsGetSnapshot (st : ZfsState) (name source : String) : PyResult (String × ZfsState) :=
  let clone := datasetCloneName (extractDatasetName source) name
  if st.datasets clone then
    let mp := st.mountpointOf clone
    if st.pathExists mp then .ok (mp, st)
    else .raise (.valueError ("Mountpoint " ++ mp ++ " does not exist"))
  else
    .raise (.valueError ("Failed to get mountpoint for " ++ clone))

/-- `ZFSSnapshotService.create_snapshot(name, source)`: `zfs list -t snapshot`
fails when `source` is not an existing snapshot, and `zfs clone` fails when the
target dataset already exists; each failure is wrapped into a `ValueError`. -/
def zfsCreateSnapshot (st : ZfsState) (name source : String) :
    PyResult (String × ZfsState) :=
  if st.snapshots source then
    let clone := datasetCloneName (extractDatasetName source) name
    if st.datasets clone then
      .raise (.valueError ("Failed to create snapshot " ++ clone ++ " from " ++ source))
    else
      let st1 := { st with datasets := fun d => if d = clone then true else st.datasets d,
                           pathExists := fun p =>
                             if p = st.mountpointOf clone then true else st.pathExists p }
      zfsGetSnapshot st1 name source
  else
    .raise (.valueError ("Snapshot " ++ source ++ " is not valid"))

/-- `ZFSSnapshotService.delete_snapshot(name, source)`: `zfs destroy` fails when
the clone dataset does not exist, and that failure is re-raised as `ValueError`. -/
def zfsDeleteSnapshot (st : ZfsState) (name source : String) : PyResult ZfsState :=
  let clone := datasetCloneName (extractDatasetName source) name
  if st.datasets clone then
    .ok { st with datasets := fun d => if d = clone then false else st.datasets d }
  else
    .raise (.valueError ("Failed to delete snapshot " ++ clone))

/-- Two consecutive `delete_snapshot` calls on the ZFS backend. -/
def zfsDeleteSnapshotTwice (st : ZfsState) (name source : String) : PyResult ZfsState :=
  (zfsDeleteSnapshot st name source).bind fun st1 => zfsDeleteSnapshot st1 name source

/-- Two consecutive `create_snapshot` calls on the ZFS backend. -/
def zfsCreateSnapshotTwice (st : ZfsState) (name source : String) :
    PyResult (String × ZfsState) :=
  (zfsCreateSnapshot st name source).bind fun r => zfsCreateSnapshot r.2 name source

/-- Two consecutive `create_snapshot` calls on the copy backend. -/
def copyCreateSnapshotTwice (fs : FS) (workDir name source : String) :
    PyResult (String × FS) :=
  (copyCreateSnapshot fs workDir name source).bind fun r =>
    copyCreateSnapshot r.2 workDir name source

/-! ### Scenario cleanup (src/expb/payloads/executor/executor.py,
`Executor.cleanup_scenario` and `Executor.remove_directories`) -/

/-- Outcome of one docker cleanup block: everything succeeded, some docker call
raised `docker.errors.NotFound`, or some call raised another exception. -/
inductive StepOutcome where
  | ok
  | notFound
  | err
  deriving DecidableEq, Fintype

/-- The failure behaviour of the environment during one `cleanup_scenario`
call: what each of the four docker cleanup blocks does, and whether
`snapshot_service.delete_snapshot` succeeds. -/
structure CleanupEnv where
  k6Block : StepOutcome
  clientBlock : StepOutcome
  alloyBlock : StepOutcome
  networkBlock : StepOutcome
  snapshotDeleteOk : Bool
  deriving DecidableEq, Fintype

/-- What a `cleanup_scenario` call did: which steps it attempted, in order, and
the exception (if any) that escaped to its caller. -/
structure CleanupResult where
  attempted : List String
  raised : Option String
  deriving DecidableEq

/-- The names of the cleanup steps of `cleanup_scenario`, in source order. -/
def cleanupStepNames : List String :=
  ["extra_commands", "k6", "execution_client", "alloy", "network", "snapshot"]

/-- One `try: ... except docker.errors.NotFound: pass` block: only the
not-found condition is swallowed; any other exception escapes. -/
def runGuardedBlock (name : String) (o : StepOutcome) (attempted : List String)
    (k : List String → CleanupResult) : CleanupResult :=
  match o with
  | .ok => k (attempted ++ [name])
  | .notFound => k (attempted ++ [name])
  | .err => ⟨attempted ++ [name], some (name ++ " cleanup error")⟩

/-- `Executor.cleanup_scenario`: stop extra commands, then the four docker
blocks (k6 container, execution client container + volumes, alloy container,
docker network), each guarded only against `docker.errors.NotFound`, then
`remove_directories`, which logs a snapshot-deletion failure and re-raises it. -/
def cleanupScenario (env : CleanupEnv) : CleanupResult :=
  runGuardedBlock "k6" env.k6Block ["extra_commands"] fun a1 =>
  runGuardedBlock "execution_client" env.clientBlock a1 fun a2 =>
  runGuardedBlock "alloy" env.alloyBlock a2 fun a3 =>
  runGuardedBlock "network" env.networkBlock a3 fun a4 =>
    if env.snapshotDeleteOk then ⟨a4 ++ ["snapshot"], none⟩
    else ⟨a4 ++ ["snapshot"], some "snapshot cleanup error"⟩

/-! ### JSON-RPC readiness polling (src/expb/payloads/executor/executor.py,
`Executor.wait_for_client_json_rpc`) -/

/-- The retryable status codes of the configured `urllib3` `Retry` policy:
`status_forcelist=[429, 500, 502, 503, 504]`. -/
def retryStatusForcelist : List Nat := [429, 500, 502, 503, 504]

/-- Result of the `session.post` with the mounted retry adapter: how many HTTP
requests were actually sent, and either the final response status or a
`MaxRetryError` (`none`). -/
structure SessionPostResult where
  attempts : Nat
  finalStatus : Option Nat
  deriving DecidableEq

/-- The `urllib3` retry loop with `Retry(total=total, ...)`: each response whose
status is in the forcelist consumes one unit of `total`; when `total` would
drop below zero a `MaxRetryError` is raised, otherwise the response is
returned.  `statuses i` is the status of the i-th request. -/
def sessionPostWithRetries (statuses : Nat → Nat) : Nat → Nat → SessionPostResult
  | attempt, total =>
      let s := statuses attempt
      if s ∈ retryStatusForcelist then
        match total with
        | 0 => ⟨attempt + 1, none⟩
        | t + 1 => sessionPostWithRetries statuses (attempt + 1) t
      else
        ⟨attempt + 1, some s⟩

/-- Outcome of `wait_for_client_json_rpc`: normal return, the explicit
`Exception("Client json rpc is not available")`, or the adapter's
`MaxRetryError` escaping. -/
inductive WaitOutcome where
  | available
  | notAvailable
  | maxRetryError
  deriving DecidableEq

/-- `Executor.wait_for_client_json_rpc` with `json_rpc_wait_max_retries =
maxRetries`, observed as (outcome, number of HTTP requests sent). -/
def waitForClientJsonRpc (maxRetries : Nat) (statuses : Nat → Nat) :
    WaitOutcome × Nat :=
  let r := sessionPostWithRetries statuses 0 maxRetries
  match r.finalStatus with
  | none => (.maxRetryError, r.attempts)
  | some s => if s < 400 then (.available, r.attempts) else (.notAvailable, r.attempts)

/-! ### k6 run configuration (src/expb/payloads/executor/services/k6.py,
`build_k6_script_config`) -/

/-- The scenario dict built by `build_k6_script_config` (fields of both the
constant-arrival-rate and the shared-iterations shapes; absent keys are
`none`). -/
structure K6Scenario where
  executorKind : String
  rate : Option Int
  timeUnit : Option String
  duration : Option String
  preAllocatedVUs : Option Nat
  maxVUs : Option Nat
  vus : Option Nat
  iterations : Option Nat
  maxDuration : Option String
  envVars : List (String × String)
  tags : List (String × String)
  deriving DecidableEq

/-- The top-level dict returned by `build_k6_script_config`. -/
structure K6Config where
  scenarioName : String
  scenario : K6Scenario
  thresholds : List (String × List String)
  systemTags : List String
  summaryTrendStats : List String
  tags : List (String × String)
  setupTimeout : Option String
  deriving DecidableEq

/-- Python truthiness of the `duration : str | None` argument
(`if not duration`). -/
def strOptFalsy : Option String → Bool
  | none => true
  | some s => s == ""

/-- `max(1, math.ceil(iterations / rate))`, the computed duration in seconds
(exact arithmetic model of `math.ceil` over true division). -/
def k6ComputedDurationSeconds (iterations : Nat) (rate : Int) : Int :=
  max 1 ⌈(iterations : ℚ) / (rate : ℚ)⌉

/-- `build_k6_script_config(test_id, scenario_name, client, iterations,
duration, rate, pre_allocated_vus, max_vus, time_unit, setup_timeout)` from
services/k6.py.  `clientName` stands for `client.value.name`. -/
def build_k6_script_config (testId scenarioName clientName : String)
    (iterations : Nat) (duration : Option String) (rate : Option Int)
    (preAllocatedVus maxVus : Nat) (timeUnit : String)
    (setupTimeout : Option String) : K6Config :=
  let scenario : K6Scenario :=
    match rate with
    | some r =>
      if 0 < r then
        let duration1 :=
          if strOptFalsy duration then
            some (toString (k6ComputedDurationSeconds iterations r) ++ "s")
          else duration
        { executorKind := "constant-arrival-rate", rate := some r,
          timeUnit := some timeUnit, duration := duration1,
          preAllocatedVUs := some preAllocatedVus, maxVUs := some maxVus,
          vus := none, iterations := none, maxDuration := none,
          envVars := [("EXPB_RATE_MODE", "1"), ("EXPB_ABORT_ON_EOF", "0")],
          tags := [("client_type", clientName)] }
      else
        { executorKind := "shared-iterations", rate := none, timeUnit := none,
          duration := none, preAllocatedVUs := none, maxVUs := none,
          vus := some 1, iterations := some iterations, maxDuration := duration,
          envVars := [], tags := [("client_type", clientName)] }
    | none =>
        { executorKind := "shared-iterations", rate := none, timeUnit := none,
          duration := none, preAllocatedVUs := none, maxVUs := none,
          vus := some 1, iterations := some iterations, maxDuration := duration,
          envVars := [], tags := [("client_type", clientName)] }
  { scenarioName := scenarioName, scenario := scenario,
    thresholds := [("http_req_failed", ["rate < 0.01"])],
    systemTags := ["scenario", "status", "url", "group", "check", "error", "error_code"],
    summaryTrendStats := ["avg", "min", "med", "max", "p(90)", "p(95)", "p(99)"],
    tags := [("testid", testId)],
    setupTimeout := setupTimeout }

/-! ### Specification-side definitions and concrete fixtures

The `...Spec` definitions below follow the specification's words (not the
source) and are compared against the source-derived definitions above. -/

/-- The JSON header text described by the spec: `\x7btyp: JWT, alg: HS256\x7d`. -/
def jwtHeaderJsonSpec : String := "\x7b\"typ\":\"JWT\",\"alg\":\"HS256\"\x7d"

/-- The JSON payload text described by the spec: `\x7biat: t, exp: t+E\x7d`. -/
def jwtPayloadJsonSpec (iat exp : Nat) : String :=
  "\x7b\"iat\":" ++ toString iat ++ ",\"exp\":" ++ toString exp ++ "\x7d"

/-- The token described by the spec: `header.payload.signature`, where header
and payload are padding-free base64url encodings of the JSON texts and the
signature is the HMAC-SHA256 of `header.payload` under the secret. -/
def jwtTokenSpec (hmacSha256 : List Nat → List Nat → List Nat) (secret : List Nat)
    (iat exp : Nat) : String :=
  let headerB64 := base64urlEncode (strBytes jwtHeaderJsonSpec)
  let payloadB64 := base64urlEncode (strBytes (jwtPayloadJsonSpec iat exp))
  let message := headerB64 ++ "." ++ payloadB64
  message ++ "." ++ base64urlEncode (hmacSha256 secret (strBytes message))

/-- A stand-in HMAC function used to instantiate theorems at concrete inputs. -/
def hmacConst : List Nat → List Nat → List Nat := fun _ _ => [1, 2, 3]

/-- An HTTP 401 response. -/
def respUnauthorized : RpcResponse := ⟨401, "unauthorized", none, none⟩

/-- An HTTP 200 response with JSON-RPC result `"0x1"`. -/
def respOkResult : RpcResponse := ⟨200, "", none, some "0x1"⟩

/-- Endpoint that returns 401 on the first request, then 200 with a result. -/
def responses401Then200 : Nat → RpcResponse :=
  fun i => if i = 0 then respUnauthorized else respOkResult

/-- Endpoint that always returns 401. -/
def responsesAlways401 : Nat → RpcResponse := fun _ => respUnauthorized

/-- An HTTP 304 response (non-2xx, not 401/403, below 400) carrying a JSON-RPC
result. -/
def resp304WithResult : RpcResponse := ⟨304, "", none, some "0x1"⟩

/-- A ZFS world holding the snapshot `tank/data@snap` and the clone dataset
`tank/data_scen1` (the state right after a successful `create_snapshot`). -/
def zfsStateWithClone : ZfsState :=
  ⟨fun s => s == "tank/data@snap", fun d => d == "tank/data_scen1",
    fun _ => "/mnt/clone", fun _ => true⟩

/-- A ZFS world holding the snapshot `tank/data@snap` and no clones. -/
def zfsStateFresh : ZfsState :=
  ⟨fun s => s == "tank/data@snap", fun _ => false, fun _ => "/mnt/clone", fun _ => true⟩

/-! ## Theorems -/

/-- C1: `class JWTProvider` defines only `__init__`, `get_jwt` and
`_base64url_encode` — it exposes no `invalidate_jwt` operation, so the
attribute lookup `jwt_provider.invalidate_jwt` performed by `engine_request`
raises `AttributeError`: on an endpoint that answers 401, `engine_request`
with the real provider raises `AttributeError` after one request instead of
invalidating the cache. -/
theorem jwtProvider_invalidate_jwt_missing :
    JWTProvider.hasInvalidateJwt = false ∧
    JWTProvider.methodNames.contains "get_jwt" = true ∧
    engineRequestReal responsesAlways401 120 10 =
      ⟨.raise (.attributeError "invalidate_jwt"), 1, 0, 1, [120]⟩ := by
  decide

/-- C5: with the real `JWTProvider` (which lacks `invalidate_jwt`),
`engine_request` against an endpoint answering 401 then 200 raises
`AttributeError` on the first attempt with zero cache invalidations, instead of
retrying; with a provider that does support invalidation, the control flow of
`engine_request` matches the claim: 401-then-200 succeeds with exactly one
invalidation, and an always-401 endpoint exhausts the budget of 10 with the
expiration window doubling from 120 and capping at 3600, raising the
distinguished `RPCError`. -/
theorem engineRequest_auth_retry_code_bug :
    engineRequestReal responses401Then200 120 10 =
      ⟨.raise (.attributeError "invalidate_jwt"), 1, 0, 1, [120]⟩ ∧
    engineRequest true responses401Then200 120 10 =
      ⟨.ok "0x1", 2, 1, 2, [120, 240]⟩ ∧
    engineRequest true responsesAlways401 120 10 =
      ⟨.raise (.rpcError "Authentication retries exhausted" 401 false), 10, 10, 10,
        [120, 240, 480, 960, 1920, 3600, 3600, 3600, 3600, 3600]⟩ := by
  decide

/-- C10: with a non-positive retry budget, `engine_request` makes no HTTP
request, never consults the JWT provider, and raises
`RPCError("Authentication retries exhausted", status_code=401, response=None)`. -/
theorem engineRequest_nonpositive_retries (hasInvalidate : Bool)
    (responses : Nat → RpcResponse) (expirationSeconds : Nat) (retries : Int)
    (h : retries ≤ 0) :
    engineRequest hasInvalidate responses expirationSeconds retries =
      ⟨.raise (.rpcError "Authentication retries exhausted" 401 false), 0, 0, 0, []⟩ := by
  have h0 : retries.toNat = 0 := Int.toNat_eq_zero.mpr h
  simp only [engineRequest, h0]
  rfl

/-- C10 witness: concrete instances at retry budgets 0 and -3 with the real
provider. -/
theorem engineRequest_nonpositive_retries_witness :
    engineRequestReal (fun _ => respOkResult) 120 0 =
      ⟨.raise (.rpcError "Authentication retries exhausted" 401 false), 0, 0, 0, []⟩ ∧
    engineRequestReal responsesAlways401 50 (-3) =
      ⟨.raise (.rpcError "Authentication retries exhausted" 401 false), 0, 0, 0, []⟩ :=
  ⟨engineRequest_nonpositive_retries JWTProvider.hasInvalidateJwt (fun _ => respOkResult)
      120 0 (by decide),
    engineRequest_nonpositive_retries JWTProvider.hasInvalidateJwt responsesAlways401
      50 (-3) (by decide)⟩

/-- C2 counterexample: with every container/network step succeeding but
snapshot deletion failing, `cleanup_scenario` raises to its caller; and a
non-NotFound failure while cleaning the execution-client container propagates
immediately, skipping the alloy, network and snapshot steps. -/
theorem cleanupScenario_raises_on_snapshot_failure :
    cleanupScenario ⟨.ok, .ok, .ok, .ok, false⟩ =
      ⟨cleanupStepNames, some "snapshot cleanup error"⟩ ∧
    cleanupScenario ⟨.ok, .err, .ok, .ok, true⟩ =
      ⟨["extra_commands", "k6", "execution_client"], some "execution_client cleanup error"⟩ := by
  decide

/-- C3 counterexample: on the ZFS backend, after a successful `delete_snapshot`
the second `delete_snapshot` for the same `(name, source)` raises `ValueError`
(`zfs destroy` fails because the clone dataset is gone). -/
theorem zfsDeleteSnapshot_twice_raises :
    (zfsDeleteSnapshot zfsStateWithClone "scen1" "tank/data@snap").isOk = true ∧
    (zfsDeleteSnapshotTwice zfsStateWithClone "scen1" "tank/data@snap").exn =
      some (.valueError "Failed to delete snapshot tank/data_scen1") := by
  constructor
  · rfl
  · rfl

/-- C4 counterexample: on the ZFS backend, `create_snapshot` does not remove a
stale prior clone: a second `create_snapshot` with the same name raises
`ValueError` because `zfs clone` finds the target dataset already present. -/
theorem zfsCreateSnapshot_twice_raises :
    (zfsCreateSnapshot zfsStateFresh "scen1" "tank/data@snap").isOk = true ∧
    (zfsCreateSnapshotTwice zfsStateFresh "scen1" "tank/data@snap").exn =
      some (.valueError "Failed to create snapshot tank/data_scen1 from tank/data@snap") := by
  constructor
  · rfl
  · rfl

/-- C7 counterexample: with `json_rpc_wait_max_retries = 2` and an endpoint that
always answers 503, `wait_for_client_json_rpc` raises `MaxRetryError` only
after 3 HTTP attempts (the initial request plus 2 retries), not after exactly 2
attempts as claimed. -/
theorem waitForClientJsonRpc_attempts_counterexample :
    waitForClientJsonRpc 2 (fun _ => 503) = (.maxRetryError, 3) ∧
    (waitForClientJsonRpc 2 (fun _ => 503)).2 ≠ 2 := by
  decide

set_option maxRecDepth 8192 in
/-- C2 (amended): each docker cleanup step of `cleanup_scenario` swallows only
the container-not-found condition, so when no step fails with anything other
than NotFound and snapshot deletion succeeds, all steps are attempted and
nothing is raised; and a non-NotFound failure in any step — k6 container,
execution-client container, alloy container, docker network, or the snapshot
deletion (whose failure `remove_directories` re-raises) — propagates out of
`cleanup_scenario`, with the steps after the failing one never attempted. -/
theorem cleanupScenario_notFound_swallowed :
    (∀ env : CleanupEnv, env.k6Block ≠ .err → env.clientBlock ≠ .err →
      env.alloyBlock ≠ .err → env.networkBlock ≠ .err → env.snapshotDeleteOk = true →
      cleanupScenario env = ⟨cleanupStepNames, none⟩) ∧
    (∀ env : CleanupEnv, env.k6Block = .err →
      cleanupScenario env = ⟨["extra_commands", "k6"], some "k6 cleanup error"⟩) ∧
    (∀ env : CleanupEnv, env.k6Block ≠ .err → env.clientBlock = .err →
      cleanupScenario env =
        ⟨["extra_commands", "k6", "execution_client"],
          some "execution_client cleanup error"⟩) ∧
    (∀ env : CleanupEnv, env.k6Block ≠ .err → env.clientBlock ≠ .err →
      env.alloyBlock = .err →
      cleanupScenario env =
        ⟨["extra_commands", "k6", "execution_client", "alloy"],
          some "alloy cleanup error"⟩) ∧
    (∀ env : CleanupEnv, env.k6Block ≠ .err → env.clientBlock ≠ .err →
      env.alloyBlock ≠ .err → env.networkBlock = .err →
      cleanupScenario env =
        ⟨["extra_commands", "k6", "execution_client", "alloy", "network"],
          some "network cleanup error"⟩) ∧
    (∀ env : CleanupEnv, env.k6Block ≠ .err → env.clientBlock ≠ .err →
      env.alloyBlock ≠ .err → env.networkBlock ≠ .err → env.snapshotDeleteOk = false →
      cleanupScenario env = ⟨cleanupStepNames, some "snapshot cleanup error"⟩) := by
  refine ⟨?_, ?_, ?_, ?_, ?_, ?_⟩ <;> decide

/-- C2 witness: a run where docker steps hit only NotFound attempts every step
and returns normally, and one concrete run per step shows a hard failure in
that step raising and skipping the steps after it. -/
theorem cleanupScenario_notFound_swallowed_witness :
    cleanupScenario ⟨.notFound, .notFound, .ok, .notFound, true⟩ =
      ⟨cleanupStepNames, none⟩ ∧
    cleanupScenario ⟨.err, .ok, .ok, .ok, true⟩ =
      ⟨["extra_commands", "k6"], some "k6 cleanup error"⟩ ∧
    cleanupScenario ⟨.notFound, .err, .ok, .ok, true⟩ =
      ⟨["extra_commands", "k6", "execution_client"],
        some "execution_client cleanup error"⟩ ∧
    cleanupScenario ⟨.ok, .ok, .err, .ok, true⟩ =
      ⟨["extra_commands", "k6", "execution_client", "alloy"],
        some "alloy cleanup error"⟩ ∧
    cleanupScenario ⟨.ok, .notFound, .ok, .err, true⟩ =
      ⟨["extra_commands", "k6", "execution_client", "alloy", "network"],
        some "network cleanup error"⟩ ∧
    cleanupScenario ⟨.notFound, .ok, .ok, .ok, false⟩ =
      ⟨cleanupStepNames, some "snapshot cleanup error"⟩ :=
  ⟨cleanupScenario_notFound_swallowed.1 ⟨.notFound, .notFound, .ok, .notFound, true⟩
      (by decide) (by decide) (by decide) (by decide) (by decide),
    cleanupScenario_notFound_swallowed.2.1 ⟨.err, .ok, .ok, .ok, true⟩ (by decide),
    cleanupScenario_notFound_swallowed.2.2.1 ⟨.notFound, .err, .ok, .ok, true⟩
      (by decide) (by decide),
    cleanupScenario_notFound_swallowed.2.2.2.1 ⟨.ok, .ok, .err, .ok, true⟩
      (by decide) (by decide) (by decide),
    cleanupScenario_notFound_swallowed.2.2.2.2.1 ⟨.ok, .notFound, .ok, .err, true⟩
      (by decide) (by decide) (by decide) (by decide),
    cleanupScenario_notFound_swallowed.2.2.2.2.2 ⟨.notFound, .ok, .ok, .ok, false⟩
      (by decide) (by decide) (by decide) (by decide) (by decide)⟩

/-- C3 (amended): `delete_snapshot` on the copy and overlay backends never
raises — deleting an absent or already-deleted snapshot is a no-op success —
but on the ZFS backend `delete_snapshot` raises `ValueError` whenever the
clone dataset is absent (never created or already destroyed). -/
theorem deleteSnapshot_absent_behaviour :
    (∀ (fs : FS) (workDir name : String),
      (copyDeleteSnapshot fs workDir name).isOk = true) ∧
    (∀ (st : OverlayState) (umountFails rmtreeFails : Bool),
      (overlayDeleteSnapshot st umountFails rmtreeFails).isOk = true) ∧
    (∀ (st : ZfsState) (name source : String),
      st.datasets (datasetCloneName (extractDatasetName source) name) = false →
      zfsDeleteSnapshot st name source =
        .raise (.valueError
          ("Failed to delete snapshot " ++ datasetCloneName (extractDatasetName source) name))) := by
  refine ⟨fun fs workDir name => ?_, fun st u r => rfl, fun st name source h => ?_⟩
  · simp only [copyDeleteSnapshot, rmtree]
    split
    · next hp => simp [hp, PyResult.isOk]
    · simp [PyResult.isOk]
  · simp [zfsDeleteSnapshot, h]

/-- C3 witness: concrete instances — copy delete on an empty filesystem,
overlay delete on a torn-down state, and ZFS delete with the clone absent. -/
theorem deleteSnapshot_absent_behaviour_witness :
    (copyDeleteSnapshot (fun _ => false) "/work" "scen1").isOk = true ∧
    (overlayDeleteSnapshot ⟨false, false, false, 0, false⟩ false false).isOk = true ∧
    zfsDeleteSnapshot zfsStateFresh "scen1" "tank/data@snap" =
      .raise (.valueError
        ("Failed to delete snapshot " ++
          datasetCloneName (extractDatasetName "tank/data@snap") "scen1")) :=
  ⟨deleteSnapshot_absent_behaviour.1 (fun _ => false) "/work" "scen1",
    deleteSnapshot_absent_behaviour.2.1 ⟨false, false, false, 0, false⟩ false false,
    deleteSnapshot_absent_behaviour.2.2 zfsStateFresh "scen1" "tank/data@snap" rfl⟩

/-- C6 counterexample: an HTTP 304 response — a non-2xx status other than
401/403 — does not make `engine_request` raise: `requests`' `resp.ok` is
`status < 400`, so the 304 body is parsed and its JSON-RPC result returned. -/
theorem engineRequest_304_returns_result :
    engineRequestReal (fun _ => resp304WithResult) 120 10 =
      ⟨.ok "0x1", 1, 0, 1, [120]⟩ ∧
    (engineRequestReal (fun _ => resp304WithResult) 120 10).outcome.isOk = true := by
  decide

/-- C6 (amended): on the first attempt, a status of 400 or above other than
401/403, a below-400 response whose body has an `error` field, or a below-400
response whose body lacks a `result` field each make `engine_request` raise an
`RPCError` carrying the error text and HTTP status immediately: one single
HTTP request is made, no retry is consumed, and the JWT cache is never
invalidated.  (Responses below status 400 — including 3xx — count as `ok` and
are parsed for `error`/`result` instead of being raised on status.) -/
theorem engineRequest_raises_immediately_non_auth (hasInvalidate : Bool)
    (responses : Nat → RpcResponse) (expirationSeconds : Nat) (retries : Int)
    (hr : 0 < retries) :
    (400 ≤ (responses 0).status → (responses 0).status ≠ 401 → (responses 0).status ≠ 403 →
      engineRequest hasInvalidate responses expirationSeconds retries =
        ⟨.raise (.rpcError (responses 0).text (responses 0).status true), 1, 0, 1,
          [expirationSeconds]⟩) ∧
    ((responses 0).status < 400 → ∀ e, (responses 0).errorField = some e →
      engineRequest hasInvalidate responses expirationSeconds retries =
        ⟨.raise (.rpcError e (responses 0).status true), 1, 0, 1, [expirationSeconds]⟩) ∧
    ((responses 0).status < 400 → (responses 0).errorField = none →
      (responses 0).resultField = none →
      engineRequest hasInvalidate responses expirationSeconds retries =
        ⟨.raise (.rpcError "No result in response" (responses 0).status true), 1, 0, 1,
          [expirationSeconds]⟩) := by
  obtain ⟨n, hn⟩ : ∃ n, retries.toNat = n + 1 := by
    refine ⟨retries.toNat - 1, ?_⟩
    have : retries.toNat ≠ 0 := by
      intro h0
      rw [Int.toNat_eq_zero] at h0
      omega
    omega
  refine ⟨fun hs h2 h3 => ?_, fun hs e he => ?_, fun hs he hres => ?_⟩
  · have h1 : (responses 0).ok = false := by
      simp only [RpcResponse.ok, decide_eq_false_iff_not]
      omega
    simp [engineRequest, hn, engineRequestGo, h1, h2, h3]
  · have h1 : (responses 0).ok = true := by
      simp only [RpcResponse.ok, decide_eq_true_eq]
      omega
    simp [engineRequest, hn, engineRequestGo, h1, he]
  · have h1 : (responses 0).ok = true := by
      simp only [RpcResponse.ok, decide_eq_true_eq]
      omega
    simp [engineRequest, hn, engineRequestGo, h1, he, hres]

/-- C6 witness: concrete instances of the three cases — HTTP 500, a JSON-RPC
error field, and a missing result field — with the real provider. -/
theorem engineRequest_raises_immediately_non_auth_witness :
    engineRequestReal (fun _ => ⟨500, "boom", none, none⟩) 120 10 =
      ⟨.raise (.rpcError "boom" 500 true), 1, 0, 1, [120]⟩ ∧
    engineRequestReal (fun _ => ⟨200, "", some "oops", some "x"⟩) 120 10 =
      ⟨.raise (.rpcError "oops" 200 true), 1, 0, 1, [120]⟩ ∧
    engineRequestReal (fun _ => ⟨200, "", none, none⟩) 120 10 =
      ⟨.raise (.rpcError "No result in response" 200 true), 1, 0, 1, [120]⟩ :=
  ⟨(engineRequest_raises_immediately_non_auth JWTProvider.hasInvalidateJwt
        (fun _ => ⟨500, "boom", none, none⟩) 120 10 (by decide)).1
      (by decide) (by decide) (by decide),
    (engineRequest_raises_immediately_non_auth JWTProvider.hasInvalidateJwt
        (fun _ => ⟨200, "", some "oops", some "x"⟩) 120 10 (by decide)).2.1
      (by decide) "oops" rfl,
    (engineRequest_raises_immediately_non_auth JWTProvider.hasInvalidateJwt
        (fun _ => ⟨200, "", none, none⟩) 120 10 (by decide)).2.2
      (by decide) rfl rfl⟩

/-- If the first `k` requests (from attempt `a`) get status 503 and request
`a + k` gets 200, the retry adapter returns the 200 response after `a + k + 1`
total requests, provided `k` does not exceed the retry budget. -/
lemma sessionPostWithRetries_succeeds (statuses : Nat → Nat) :
    ∀ (k a t : Nat), k ≤ t → (∀ i, i < k → statuses (a + i) = 503) →
      statuses (a + k) = 200 →
      sessionPostWithRetries statuses a t = ⟨a + k + 1, some 200⟩ := by
  intro k
  induction k with
  | zero =>
    intro a t _ _ h200
    rw [Nat.add_zero] at h200
    unfold sessionPostWithRetries
    simp [h200, retryStatusForcelist]
  | succ k ih =>
    intro a t hkt h503 h200
    have h0 : statuses a = 503 := by
      have := h503 0 (Nat.succ_pos k)
      simpa using this
    obtain ⟨t1, rfl⟩ : ∃ t1, t = t1 + 1 := ⟨t - 1, by omega⟩
    have hrec := ih (a + 1) t1 (by omega)
      (fun i hi => by
        have := h503 (i + 1) (by omega)
        simpa [Nat.add_assoc, Nat.add_comm 1 i] using this)
      (by
        have : a + 1 + k = a + (k + 1) := by omega
        rw [this]
        exact h200)
    unfold sessionPostWithRetries
    simp only [h0, retryStatusForcelist]
    norm_num
    rw [hrec]
    congr 1
    omega

/-- Against an endpoint that always answers 503, the retry adapter with budget
`t` raises `MaxRetryError` after `a + t + 1` total requests. -/
lemma sessionPostWithRetries_all503 :
    ∀ (t a : Nat), sessionPostWithRetries (fun _ => 503) a t = ⟨a + t + 1, none⟩ := by
  intro t
  induction t with
  | zero =>
    intro a
    unfold sessionPostWithRetries
    simp [retryStatusForcelist]
  | succ t ih =>
    intro a
    unfold sessionPostWithRetries
    simp only [retryStatusForcelist]
    norm_num
    rw [ih (a + 1)]
    congr 1
    omega

/-- C7 (amended): if the endpoint returns 503 for the first `k` attempts with
`k < json_rpc_wait_max_retries` and then 200, `wait_for_client_json_rpc`
returns successfully (after `k + 1` requests); against an endpoint that always
returns 503 it raises only after exactly `json_rpc_wait_max_retries + 1`
attempts — the initial request plus `max_retries` retries — not after
`max_retries` attempts. -/
theorem waitForClientJsonRpc_retry_spec (maxRetries k : Nat) (statuses : Nat → Nat)
    (hk : k < maxRetries) (h503 : ∀ i, i < k → statuses i = 503)
    (h200 : statuses k = 200) :
    waitForClientJsonRpc maxRetries statuses = (.available, k + 1) ∧
    ∀ m : Nat, waitForClientJsonRpc m (fun _ => 503) = (.maxRetryError, m + 1) := by
  constructor
  · have h := sessionPostWithRetries_succeeds statuses k 0 maxRetries (le_of_lt hk)
      (fun i hi => by simpa using h503 i hi) (by simpa using h200)
    simp [waitForClientJsonRpc, h]
  · intro m
    have h := sessionPostWithRetries_all503 m 0
    simp only [Nat.zero_add] at h
    simp [waitForClientJsonRpc, h]

/-- C7 witness: with  max_retries = 3 and two 503s before a 200 the poll
succeeds after 3 requests; with max_retries = 2 and constant 503 it raises
after 3 requests. -/
theorem waitForClientJsonRpc_retry_spec_witness :
    waitForClientJsonRpc 3 (fun i => if i < 2 then 503 else 200) = (.available, 3) ∧
    waitForClientJsonRpc 2 (fun _ => 503) = (.maxRetryError, 3) :=
  ⟨(waitForClientJsonRpc_retry_spec 3 2 (fun i => if i < 2 then 503 else 200)
      (by decide) (by decide) (by decide)).1,
    (waitForClientJsonRpc_retry_spec 3 2 (fun i => if i < 2 then 503 else 200)
      (by decide) (by decide) (by decide)).2 2⟩

/-- The copy backend's snapshot path is distinct from its work directory. -/
lemma copySnapshotPath_ne_workdir (wd name : String) : copySnapshotPath wd name ≠ wd := by
  intro h
  have h2 : (copySnapshotPath wd name).length = wd.length := congrArg String.length h
  simp only [copySnapshotPath, String.length_append] at h2
  have h3 : ("/" : String).length = 1 := rfl
  omega

/-- Evaluation of `CopySnapshotService.create_snapshot` when the source exists
and is not the destination: any stale destination is removed, then the tree is
copied afresh. -/
lemma copyCreateSnapshot_eq (fs : FS) (wd name source : String)
    (hs : fs source = true) (hne : source ≠ copySnapshotPath wd name) :
    copyCreateSnapshot fs wd name source =
      .ok (copySnapshotPath wd name,
        FS.set
          (FS.set
            (if fs (copySnapshotPath wd name) then
              FS.set fs (copySnapshotPath wd name) false
            else fs)
            wd true)
          (copySnapshotPath wd name) true) := by
  have hdw := copySnapshotPath_ne_workdir wd name
  by_cases hd : fs (copySnapshotPath wd name) = true
  · simp [copyCreateSnapshot, rmtree, mkdirP, copytree, PyResult.bind, FS.set,
      hs, hne, hdw, hd]
  · simp [copyCreateSnapshot, rmtree, mkdirP, copytree, PyResult.bind, FS.set,
      hs, hne, hdw, hd]

/-- `create_snapshot` on the copy backend succeeds and leaves the source in
place (when the source is not the snapshot path itself). -/
lemma copyCreateSnapshot_spec (fs : FS) (wd name source : String)
    (hs : fs source = true) (hne : source ≠ copySnapshotPath wd name) :
    ∃ fs2 : FS,
      copyCreateSnapshot fs wd name source = .ok (copySnapshotPath wd name, fs2) ∧
      fs2 source = true := by
  refine ⟨_, copyCreateSnapshot_eq fs wd name source hs hne, ?_⟩
  by_cases hsw : source = wd
  · simp [FS.set, hne, hsw]
  · by_cases hd : fs (copySnapshotPath wd name) = true
    · simp [FS.set, hne, hsw, hd, hs]
    · simp [FS.set, hne, hsw, hd, hs]

/-- C4 (amended): only the copy backend removes a stale prior snapshot with the
same name before creating, so a repeated `create_snapshot` succeeds there; the
overlay backend's `create_snapshot` leaves any stale upper-directory contents
in place (it only `mkdir`s with `exist_ok` and mounts again); and the ZFS
backend raises `ValueError` on a second `create_snapshot` with the same name,
because the clone dataset already exists. -/
theorem createSnapshot_stale_behaviour :
    (∀ (fs : FS) (wd name source : String), fs source = true →
      source ≠ copySnapshotPath wd name →
      (copyCreateSnapshotTwice fs wd name source).isOk = true) ∧
    (∀ (st st2 : OverlayState), overlayCreateSnapshot st true = .ok st2 →
      st2.upperStale = st.upperStale ∧ st2.mounts = st.mounts + 1) ∧
    (∀ (st : ZfsState) (name source : String), st.snapshots source = true →
      st.datasets (datasetCloneName (extractDatasetName source) name) = true →
      zfsCreateSnapshot st name source =
        .raise (.valueError
          ("Failed to create snapshot " ++
            datasetCloneName (extractDatasetName source) name ++ " from " ++ source))) := by
  refine ⟨fun fs wd name source hs hne => ?_, fun st st2 h => ?_, fun st name source h1 h2 => ?_⟩
  · obtain ⟨fs1, h1, hs1⟩ := copyCreateSnapshot_spec fs wd name source hs hne
    obtain ⟨fs2, h2, _⟩ := copyCreateSnapshot_spec fs1 wd name source hs1 hne
    simp [copyCreateSnapshotTwice, h1, PyResult.bind, h2, PyResult.isOk]
  · simp only [overlayCreateSnapshot, if_true, PyResult.ok.injEq] at h
    subst h
    exact ⟨rfl, rfl⟩
  · simp [zfsCreateSnapshot, h1, h2]

/-- C4 witness: concrete instances — a double copy-create over a filesystem
that already holds a stale snapshot, an overlay create on a state with stale
upper contents, and a ZFS create with the clone dataset already present. -/
theorem createSnapshot_stale_behaviour_witness :
    (copyCreateSnapshotTwice (fun p => p == "/snap" || p == "/work/scen1") "/work"
      "scen1" "/snap").isOk = true ∧
    ((⟨true, true, true, 0, true⟩ : OverlayState).upperStale = true ∧
      (overlayCreateSnapshot ⟨true, true, true, 0, true⟩ true).exn = none) ∧
    zfsCreateSnapshot zfsStateWithClone "scen1" "tank/data@snap" =
      .raise (.valueError
        ("Failed to create snapshot " ++
          datasetCloneName (extractDatasetName "tank/data@snap") "scen1" ++
          " from " ++ "tank/data@snap")) :=
  ⟨createSnapshot_stale_behaviour.1 (fun p => p == "/snap" || p == "/work/scen1")
      "/work" "scen1" "/snap" (by decide) (by decide),
    ⟨rfl, by
      have h := createSnapshot_stale_behaviour.2.1 ⟨true, true, true, 0, true⟩
        ⟨true, true, true, 1, true⟩ rfl
      rfl⟩,
    createSnapshot_stale_behaviour.2.2 zfsStateWithClone "scen1" "tank/data@snap"
      rfl rfl⟩

/-- The serialized header dict equals the spec's JSON header text. -/
lemma jwtHeaderJson_eq_spec : jwtHeaderJson = jwtHeaderJsonSpec := rfl

/-- The serialized payload dict equals the spec's JSON payload text. -/
lemma jwtPayloadJson_eq_spec (iat exp : Nat) :
    jwtPayloadJson iat exp = jwtPayloadJsonSpec iat exp := by
  have e1 : ∀ z : String, "\x7b" ++ ("\"" ++ ("iat" ++ ("\":" ++ z))) = "\x7b\"iat\":" ++ z := by
    intro z
    rw [← String.append_assoc, ← String.append_assoc, ← String.append_assoc]
    exact rfl
  have e2 : ∀ z : String, "," ++ ("\"" ++ ("exp" ++ ("\":" ++ z))) = ",\"exp\":" ++ z := by
    intro z
    rw [← String.append_assoc, ← String.append_assoc, ← String.append_assoc]
    exact rfl
  simp only [jwtPayloadJson, jwtPayloadJsonSpec, jsonDumps, jsonDumpsPairs, renderJsonVal,
    String.append_assoc]
  rw [e1, e2]

/-- C8: `get_jwt` returns the cached token exactly when it is non-empty and the
call time is more than the expiration threshold (default 10 s) before the
cached expiry; otherwise it returns the freshly signed `header.payload.signature`
token described by the spec (base64url JSON header/payload, HMAC-SHA256
signature) for `iat = now`, `exp = now + E`, and replaces the cache only under
the re-checked freshness condition, so a still-valid token written by a
concurrent caller is not overwritten. -/
theorem getJwt_caching_spec (hmacSha256 : List Nat → List Nat → List Nat)
    (secret : List Nat) (thr now expirationSeconds : Nat) (c1 c2 : JWTCache) :
    defaultExpirationThresholdSeconds = 10 ∧
    (∀ c : JWTCache, cacheIsFresh thr now c = true ↔
      (c.token ≠ "" ∧ (thr : Int) < (c.exp : Int) - (now : Int))) ∧
    (cacheIsFresh thr now c1 = true →
      getJwt hmacSha256 secret thr now expirationSeconds c1 c2 = ⟨c1.token, none⟩) ∧
    (cacheIsFresh thr now c1 = false →
      (getJwt hmacSha256 secret thr now expirationSeconds c1 c2).token =
        jwtTokenSpec hmacSha256 secret now (now + expirationSeconds) ∧
      (cacheIsFresh thr now c2 = true →
        (getJwt hmacSha256 secret thr now expirationSeconds c1 c2).write = none) ∧
      (cacheIsFresh thr now c2 = false →
        (getJwt hmacSha256 secret thr now expirationSeconds c1 c2).write =
          some ⟨jwtTokenSpec hmacSha256 secret now (now + expirationSeconds),
            now + expirationSeconds⟩)) := by
  refine ⟨rfl, fun c => ?_, fun h => ?_, fun h => ⟨?_, fun h2 => ?_, fun h2 => ?_⟩⟩
  · simp only [cacheIsFresh, Bool.and_eq_true, bne_iff_ne, ne_eq, decide_eq_true_eq]
    constructor
    · rintro ⟨a, b⟩
      exact ⟨a, by omega⟩
    · rintro ⟨a, b⟩
      exact ⟨a, by omega⟩
  · simp [getJwt, h]
  · simp only [getJwt, h, Bool.false_eq_true, if_false]
    simp only [jwtTokenSpec, ← jwtHeaderJson_eq_spec, ← jwtPayloadJson_eq_spec]
    split <;> rfl
  · simp [getJwt, h, h2]
  · simp only [getJwt, h, h2, Bool.false_eq_true, if_false]
    simp only [jwtTokenSpec, ← jwtHeaderJson_eq_spec, ← jwtPayloadJson_eq_spec]

/-- C8 witness: with a fresh cache entry the exact cached token is returned and
nothing is written; with the initial (empty) cache a fresh spec-shaped token is
returned and written with expiry `now + E`. -/
theorem getJwt_caching_spec_witness :
    getJwt hmacConst [] 10 100 120 ⟨"cachedtoken", 200⟩ ⟨"cachedtoken", 200⟩ =
      ⟨"cachedtoken", none⟩ ∧
    (getJwt hmacConst [] 10 100 120 initialJwtCache initialJwtCache).token =
      jwtTokenSpec hmacConst [] 100 220 ∧
    (getJwt hmacConst [] 10 100 120 initialJwtCache initialJwtCache).write =
      some ⟨jwtTokenSpec hmacConst [] 100 220, 220⟩ :=
  ⟨(getJwt_caching_spec hmacConst [] 10 100 120 ⟨"cachedtoken", 200⟩
      ⟨"cachedtoken", 200⟩).2.2.1 (by decide),
    ((getJwt_caching_spec hmacConst [] 10 100 120 initialJwtCache
      initialJwtCache).2.2.2 (by decide)).1,
    (((getJwt_caching_spec hmacConst [] 10 100 120 initialJwtCache
      initialJwtCache).2.2.2 (by decide)).2.2 (by decide))⟩

/-- C9: in constant-arrival-rate mode (positive rate), for every positive
iteration count, when no duration is supplied `build_k6_script_config` sets the
scenario duration to `ceil(iterations / rate)` seconds (the source's
`max(1, ...)` clamp is inactive because the ceiling is already at least 1). -/
theorem build_k6_duration_ceil (testId scenarioName clientName : String)
    (iterations : Nat) (r : Int) (preAllocatedVus maxVus : Nat) (timeUnit : String)
    (setupTimeout : Option String) (hr : 0 < r) (hi : 0 < iterations) :
    (build_k6_script_config testId scenarioName clientName iterations none (some r)
      preAllocatedVus maxVus timeUnit setupTimeout).scenario.executorKind =
        "constant-arrival-rate" ∧
    (build_k6_script_config testId scenarioName clientName iterations none (some r)
      preAllocatedVus maxVus timeUnit setupTimeout).scenario.duration =
        some (toString ⌈(iterations : ℚ) / ((r : ℤ) : ℚ)⌉ ++ "s") := by
  have hceil : k6ComputedDurationSeconds iterations r = ⌈(iterations : ℚ) / ((r : ℤ) : ℚ)⌉ := by
    unfold k6ComputedDurationSeconds
    have hpos : (0 : ℚ) < (iterations : ℚ) / ((r : ℤ) : ℚ) := by
      apply div_pos
      · exact_mod_cast hi
      · exact_mod_cast hr
    exact max_eq_right (Int.ceil_pos.mpr hpos)
  constructor
  · simp [build_k6_script_config, hr]
  · simp [build_k6_script_config, hr, strOptFalsy, hceil]

/-- C9 witness: 10 iterations at rate 4 with no explicit duration yields a
constant-arrival-rate scenario of duration `3s` (= ceil(10/4) seconds). -/
theorem build_k6_duration_ceil_witness :
    (build_k6_script_config "testid" "scenario1" "geth" 10 none (some 4) 2 2 "1s"
      (some "10m")).scenario.executorKind = "constant-arrival-rate" ∧
    (build_k6_script_config "testid" "scenario1" "geth" 10 none (some 4) 2 2 "1s"
      (some "10m")).scenario.duration = some "3s" := by
  have h := build_k6_duration_ceil "testid" "scenario1" "geth" 10 4 2 2 "1s"
    (some "10m") (by decide) (by decide)
  refine ⟨h.1, ?_⟩
  rw [h.2]
  have h3 : (⌈((10 : ℕ) : ℚ) / ((4 : ℤ) : ℚ)⌉ : ℤ) = 3 := by
    rw [Int.ceil_eq_iff]
    norm_num
  rw [h3]
  decide

end Expb
